import Mathlib

set_option maxHeartbeats 1000000

/- Verification development for the Dark Souls scene-loading pipeline of
   noclip.website (src/dks/scenes.ts).

   The pipeline is shallowly embedded.  Raw byte buffers are lists of bytes.
   The external binary decoders (BYML, MSB, DCX, TPF, BHD, BND3, FLVER) are
   black-box collaborators and are passed in as function parameters bundled
   in an `Externals` record, each returning `Except String` to model a JS
   decode error being thrown.  The sequential effectful load is embedded as
   a writer-style computation `LoadM` that accumulates a trace of observable
   events (network fetches, namespace lookups, console logging, texture
   registrations) and can stop with a thrown error, mirroring the
   single-threaded cooperative execution of the source. -/

abbrev Buffer := List Nat

/-- Decoded texture image of a TPF container (external TPF module); only the
embedded name is relevant to this pipeline, the image payload is opaque. -/
structure Texture where
  name : String
deriving DecidableEq

/-- Result of TPF.parse: a texture container. -/
structure TPF where
  textures : List Texture
deriving DecidableEq

/-- One record of a split header/data archive, as produced by BHD.parse:
a declared name plus the raw payload carved out of the data blob. -/
structure FileRecord where
  name : String
  buffer : Buffer
deriving DecidableEq

/-- Result of BHD.parse over a .tpfbhd/.tpfbdt pair. -/
structure BHD where
  fileRecords : List FileRecord
deriving DecidableEq

/-- Result of FLVER.parse: model geometry; only the batch list matters to the
pipeline (batches are opaque, identified here by numbers). -/
structure FLVER where
  batches : List Nat
deriving DecidableEq

/-- One entry of the decoded placement table (MSB.parse): a kind discriminant
and, for model-kind entries, the referenced model-file path. -/
structure MSBModel where
  type : Int
  flverPath : String
deriving DecidableEq

/-- Result of MSB.parse: the scene placement table. -/
structure MSB where
  models : List MSBModel
deriving DecidableEq

/-- Result of BND3.parse: the generic block-name container decoded from
mtd/Mtd.mtdbnd.  Its contents are opaque to the pipeline. -/
structure BND3 where
  files : List String
deriving DecidableEq

/-- Result of BYML.parse on a CRG1 bulk archive: named byte buffers.  A JS
object literal is modelled as an association list in key insertion order. -/
structure CRG1Arc where
  Files : List (String × Buffer)
deriving DecidableEq

/-- JS Map.set semantics on an association list: replace the value in place
if the key is already bound, otherwise append the new binding. -/
def setAssoc : List (String × Buffer) → String → Buffer → List (String × Buffer)
  | [], k, v => [(k, v)]
  | (k', v') :: rest, k, v =>
    if k' = k then (k, v) :: rest else (k', v') :: setAssoc rest k v

/-- JS Map.get semantics: the value bound to the key, if any. -/
def getAssoc : List (String × Buffer) → String → Option Buffer
  | [], _ => none
  | (k', v') :: rest, k => if k' = k then some v' else getAssoc rest k

/-- The virtual resource namespace (class ResourceSystem): a mapping from
logical path to raw buffer. -/
structure ResourceSystem where
  files : List (String × Buffer)
deriving DecidableEq

def ResourceSystem.empty : ResourceSystem := ⟨[]⟩

/-- ResourceSystem.mountFile: files.set(fileName, buffer). -/
def ResourceSystem.mountFile (rs : ResourceSystem) (fileName : String) (buffer : Buffer) :
    ResourceSystem :=
  ⟨setAssoc rs.files fileName buffer⟩

/-- ResourceSystem.mountCRG1: iterate Object.keys(n.Files) in order and set
each (filename, buffer) pair. -/
def ResourceSystem.mountCRG1 (rs : ResourceSystem) (n : CRG1Arc) : ResourceSystem :=
  ⟨n.Files.foldl (fun fs kv => setAssoc fs kv.1 kv.2) rs.files⟩

/-- ResourceSystem.lookupFile: files.get(filename), possibly absent. -/
def ResourceSystem.lookupFile (rs : ResourceSystem) (filename : String) : Option Buffer :=
  getAssoc rs.files filename

/-- The GPU texture holder (external DDSTextureHolder); registration order of
texture names is the only observable this pipeline relies on. -/
structure DDSTextureHolder where
  textures : List Texture
deriving DecidableEq

def DDSTextureHolder.empty : DDSTextureHolder := ⟨[]⟩

/-- DDSTextureHolder.addTextures(device, textures): registers every decoded
image with the holder, in order. -/
def DDSTextureHolder.addTextures (h : DDSTextureHolder) (ts : List Texture) : DDSTextureHolder :=
  ⟨h.textures ++ ts⟩

/-- GPU-resident model data built from one decoded FLVER
(class FLVERData of ./render, external). -/
structure FLVERData where
  flver : FLVER
deriving DecidableEq

/-- Class ModelHolder: the sparse, index-aligned model slot array uploaded to
the GPU.  The constructor creates FLVERData only for present slots.  A JS
sparse array read past its populated length yields undefined, so the array is
modelled as a length-aligned list of options. -/
structure ModelHolder where
  flverData : List (Option FLVERData)
deriving DecidableEq

/-- ModelHolder constructor: for each i, if flver[i] is defined, wrap it. -/
def ModelHolder.ofFLVERs (flver : List (Option FLVER)) : ModelHolder :=
  ⟨flver.map (Option.map FLVERData.mk)⟩

/-- The per-scene sub-renderer (class MSBRenderer of ./render, external);
modelled by exactly the constructor arguments the pipeline hands it:
new MSBRenderer(device, textureHolder, modelHolder, msb). -/
structure MSBRenderer where
  textureHolder : DDSTextureHolder
  modelHolder : ModelHolder
  msb : MSB
deriving DecidableEq

/-- Class DKSRenderer: the scene aggregate owning the holders and the
registered sub-scene renderers. -/
structure DKSRenderer where
  sceneRenderers : List MSBRenderer
  textureHolder : DDSTextureHolder
  modelHolder : ModelHolder
deriving DecidableEq

/-- DKSRenderer.addSceneRenderer pushes the renderer onto the list. -/
def DKSRenderer.addSceneRenderer (r : DKSRenderer) (sceneRenderer : MSBRenderer) : DKSRenderer :=
  { r with sceneRenderers := r.sceneRenderers ++ [sceneRenderer] }

/-- Observable events of one load, in program order. -/
inductive Event where
  /-- A network fetch issued by the DataFetcher for this URL. -/
  | fetch (url : String)
  /-- A resourceSystem.lookupFile call for this logical path. -/
  | lookup (path : String)
  /-- The console.log(mtdBnd) debug print of the decoded BND3 container. -/
  | log (mtd : BND3)
  /-- A texture image registered with the DDSTextureHolder. -/
  | register (name : String)
deriving DecidableEq

/-- Writer-style load computation: the trace of events emitted so far plus
either a result or a thrown JS error. -/
def LoadM (α : Type) : Type := List Event × Except String α

def LoadM.bind {α β : Type} (x : LoadM α) (f : α → LoadM β) : LoadM β :=
  match x with
  | (tr, Except.ok a) => ((tr ++ (f a).1 : List Event), (f a).2)
  | (tr, Except.error e) => (tr, Except.error e)

instance : Monad LoadM where
  pure a := (([] : List Event), Except.ok a)
  bind := LoadM.bind

/-- Emit one observable event. -/
def emitE (e : Event) : LoadM Unit := ([e], Except.ok ())

/-- Throw a JS error. -/
def throwE {α : Type} (e : String) : LoadM α := (([] : List Event), Except.error e)

/-- Lift the result of an external decoder. -/
def liftE {α : Type} (x : Except String α) : LoadM α := (([] : List Event), x)

/-- Model of a JS dereference of a possibly-undefined value: the source never
checks lookupFile results before handing them to a decoder, and dereferencing
undefined throws a TypeError at runtime. -/
def jsDeref {α : Type} (x : Option α) : LoadM α :=
  match x with
  | some a => (([] : List Event), Except.ok a)
  | none => (([] : List Event), Except.error "TypeError: undefined")

/-- Model of assert(b) from ../util: throws on a false condition. -/
def assertL (p : Prop) [Decidable p] : LoadM Unit :=
  if p then (([] : List Event), Except.ok ()) else throwE "Assert fail"

/-- The external binary decoders consumed by the pipeline, as black boxes.
Each models the corresponding module-level parse/decompress function; a
decode failure is an error result. -/
structure Externals where
  decompressBuffer : Buffer → Except String Buffer
  parseCRG1 : Buffer → Except String CRG1Arc
  parseMSB : Buffer → String → Except String MSB
  parseBND3 : Buffer → Except String BND3
  parseBHD : Buffer → Buffer → Except String BHD
  parseTPF : Buffer → Except String TPF
  parseFLVER : Buffer → Except String FLVER

/-- JS String.prototype.toLowerCase over the (ASCII) names used here. -/
def jsToLower (s : String) : String := String.mk (s.data.map Char.toLower)

/-- JS String.prototype.endsWith. -/
def jsEndsWith (s pat : String) : Bool := List.isSuffixOf pat.data s.data

/-- JS String.prototype.replace with a plain (non-global) string pattern and
empty replacement: remove the first occurrence of the pattern, if any. -/
def removeFirstOcc (pat : List Char) : List Char → List Char
  | [] => []
  | c :: cs =>
    if pat.isPrefixOf (c :: cs) then (c :: cs).drop pat.length
    else c :: removeFirstOcc pat cs

/-- The declared-name key computed at src/dks/scenes.ts:157:
r.name.replace of every backslash by nothing, then .replace of the first
occurrence of ".tpf.dcx" by nothing, then .toLowerCase(). -/
def normalizeDeclared (s : String) : String :=
  jsToLower (String.mk (removeFirstOcc ".tpf.dcx".data (s.data.filter (fun c => c ≠ '\\'))))

/-- Drop a trailing pattern from a character list, when present. -/
def stripSuffixChars (pat : List Char) (l : List Char) : List Char :=
  if List.isSuffixOf pat l then l.take (l.length - pat.length) else l

/-- Declared-name key following the words of the specification sentence
for the split-bank validation: path separators (the backslashes used in the
archive's declared names) stripped, the ".tpf.dcx" suffix stripped,
lower-cased.  Kept separate from `normalizeDeclared`, which embeds the
source; the two are compared by the associated claim. -/
def specDeclaredNameKey (s : String) : String :=
  jsToLower (String.mk (stripSuffixChars ".tpf.dcx".data (s.data.filter (fun c => c ≠ '\\'))))

/-- Registration of a list of decoded textures:
textureHolder.addTextures(device, ts), with one observable registration
event per image. -/
def addTexturesM (h : DDSTextureHolder) (ts : List Texture) : LoadM DDSTextureHolder :=
  ((ts.map (fun t => Event.register t.name) : List Event), Except.ok (h.addTextures ts))

/-- Processing of one record of a split texture bank: the body of the loop at
src/dks/scenes.ts:151-162.  Asserts the declared-name suffix, decompresses
and decodes the payload, asserts the singleton image count, compares the
normalized keys, and registers the image. -/
def processRecord (ext : Externals) (h : DDSTextureHolder) (r : FileRecord) :
    LoadM DDSTextureHolder := do
  assertL (jsEndsWith r.name ".tpf.dcx" = true)
  let decompressed ← liftE (ext.decompressBuffer r.buffer)
  let tpf ← liftE (ext.parseTPF decompressed)
  assertL (tpf.textures.length = 1)
  let t0 ← jsDeref tpf.textures.head?
  let key1 := normalizeDeclared r.name
  let key2 := jsToLower t0.name
  assertL (key1 = key2)
  addTexturesM h tpf.textures

/-- The record loop of loadTextureBHD, in file-record order. -/
def processRecords (ext : Externals) (h : DDSTextureHolder) :
    List FileRecord → LoadM DDSTextureHolder
  | [] => pure h
  | r :: rest => do
    let h' ← processRecord ext h r
    processRecords ext h' rest

/-- DKSSceneDesc.loadTextureBHD: look up the header and data halves of a
split bank, decode them jointly, and process every record. -/
def loadTextureBHD (ext : Externals) (h : DDSTextureHolder) (rs : ResourceSystem)
    (baseName : String) : LoadM DDSTextureHolder := do
  emitE (Event.lookup (baseName ++ ".tpfbhd"))
  let bhdOpt := rs.lookupFile (baseName ++ ".tpfbhd")
  emitE (Event.lookup (baseName ++ ".tpfbdt"))
  let bdtOpt := rs.lookupFile (baseName ++ ".tpfbdt")
  let bhdBuffer ← jsDeref bhdOpt
  let bdtBuffer ← jsDeref bdtOpt
  let bhd ← liftE (ext.parseBHD bhdBuffer bdtBuffer)
  processRecords ext h bhd.fileRecords

/-- DKSSceneDesc.loadTextureTPFDCX: look up a loose texture container,
decompress and decode it, and register all of its textures unconditionally. -/
def loadTextureTPFDCX (ext : Externals) (h : DDSTextureHolder) (rs : ResourceSystem)
    (baseName : String) : LoadM DDSTextureHolder := do
  emitE (Event.lookup (baseName ++ ".tpf.dcx"))
  let buffer := rs.lookupFile (baseName ++ ".tpf.dcx")
  let b ← jsDeref buffer
  let decompressed ← liftE (ext.decompressBuffer b)
  let tpf ← liftE (ext.parseTPF decompressed)
  addTexturesM h tpf.textures

/-- The model resolution loop of createScene (src/dks/scenes.ts:186-194):
for each placement entry of model kind (type === 0), look up the referenced
model file, decompress and decode it, and keep the geometry only when it has
at least one batch.  The buffer returned by lookupFile is handed to the
decompressor without an absence check, exactly as in the source. -/
def resolveModels (ext : Externals) (rs : ResourceSystem) :
    List MSBModel → LoadM (List (Option FLVER))
  | [] => pure []
  | m :: ms =>
    if m.type = 0 then do
      emitE (Event.lookup m.flverPath)
      let flverBuffer := rs.lookupFile m.flverPath
      let b ← jsDeref flverBuffer
      let decompressed ← liftE (ext.decompressBuffer b)
      let flver ← liftE (ext.parseFLVER decompressed)
      let rest ← resolveModels ext rs ms
      pure ((if 0 < flver.batches.length then some flver else none) :: rest)
    else do
      let rest ← resolveModels ext rs ms
      pure (none :: rest)

def pathBase : String := "dks"

def arcNameOf (id : String) : String := id ++ "_arc.crg1"

/-- JS id.slice(0, 3): the map group, first three characters of the scene id. -/
def mapGroupOf (id : String) : String := String.mk (id.data.take 3)

/-- Phase 1 plus namespace population: both network requests of the
Promise.all join are issued up front (they run in parallel in the source),
then either rejection rejects the join; the archive manifest is mounted in
bulk and the loose material-definition buffer is mounted under its own path.
The completion order of the two concurrent mounts is timing-dependent in JS;
the two key sets are checked in a fixed order here, which the stated claims
do not distinguish. -/
def phaseFetch (ext : Externals) (net : String → Except String Buffer) (id : String) :
    LoadM ResourceSystem := do
  emitE (Event.fetch (pathBase ++ "/" ++ arcNameOf id))
  emitE (Event.fetch (pathBase ++ "/" ++ "mtd/Mtd.mtdbnd"))
  let buffer ← liftE (net (pathBase ++ "/" ++ arcNameOf id))
  let crg1Arc ← liftE (ext.parseCRG1 buffer)
  let rs1 := ResourceSystem.empty.mountCRG1 crg1Arc
  let mtdBuffer ← liftE (net (pathBase ++ "/" ++ "mtd/Mtd.mtdbnd"))
  pure (rs1.mountFile "mtd/Mtd.mtdbnd" mtdBuffer)

/-- Placement-table decode (src/dks/scenes.ts:179-181): look up the msb at
the MapStudio convention and decode it with the scene id as context. -/
def phaseMSB (ext : Externals) (rs : ResourceSystem) (id : String) : LoadM MSB := do
  emitE (Event.lookup ("/map/MapStudio/" ++ id ++ ".msb"))
  let msbBuffer := rs.lookupFile ("/map/MapStudio/" ++ id ++ ".msb")
  let b ← jsDeref msbBuffer
  liftE (ext.parseMSB b id)

/-- Material container decode (src/dks/scenes.ts:183-184): decode the mounted
material-definition buffer and console.log the result.  The decoded container
is not bound by the caller. -/
def phaseMtd (ext : Externals) (rs : ResourceSystem) : LoadM Unit := do
  emitE (Event.lookup "mtd/Mtd.mtdbnd")
  let mtdBuffer := rs.lookupFile "mtd/Mtd.mtdbnd"
  let b ← jsDeref mtdBuffer
  let mtdBnd ← liftE (ext.parseBND3 b)
  emitE (Event.log mtdBnd)

/-- The five texture loads of createScene (src/dks/scenes.ts:199-203): the
four numbered split banks in order, then the loose 9999 container. -/
def loadMapTextures (ext : Externals) (textureHolder : DDSTextureHolder)
    (rs : ResourceSystem) (mapKey : String) : LoadM DDSTextureHolder := do
  let th1 ← loadTextureBHD ext textureHolder rs ("/map/" ++ mapKey ++ "/" ++ mapKey ++ "_0000")
  let th2 ← loadTextureBHD ext th1 rs ("/map/" ++ mapKey ++ "/" ++ mapKey ++ "_0001")
  let th3 ← loadTextureBHD ext th2 rs ("/map/" ++ mapKey ++ "/" ++ mapKey ++ "_0002")
  let th4 ← loadTextureBHD ext th3 rs ("/map/" ++ mapKey ++ "/" ++ mapKey ++ "_0003")
  loadTextureTPFDCX ext th4 rs ("/map/" ++ mapKey ++ "/" ++ mapKey ++ "_9999")

/-- Model resolution, GPU upload, texture resolution and sub-scene
construction (src/dks/scenes.ts:186-209). -/
def phasePost (ext : Externals) (rs : ResourceSystem) (id : String) (msb : MSB) :
    LoadM DKSRenderer := do
  let flver ← resolveModels ext rs msb.models
  let modelHolder := ModelHolder.ofFLVERs flver
  let textureHolder := DDSTextureHolder.empty
  let mapKey := mapGroupOf id
  let th ← loadMapTextures ext textureHolder rs mapKey
  let sceneRenderer := MSBRenderer.mk th modelHolder msb
  let renderer := DKSRenderer.mk [] th modelHolder
  pure (renderer.addSceneRenderer sceneRenderer)

/-- DKSSceneDesc.createScene for one scene id, given the network responses
and the external decoders. -/
def createScene (ext : Externals) (net : String → Except String Buffer) (id : String) :
    LoadM DKSRenderer := do
  let rs ← phaseFetch ext net id
  let msb ← phaseMSB ext rs id
  phaseMtd ext rs
  phasePost ext rs id msb

/-- Teardown events, in emission order, of the scene aggregate. -/
inductive DestroyEvent where
  /-- super.destroy(device): the BasicRendererHelper base class teardown. -/
  | base
  /-- sceneRenderers[i].destroy(device). -/
  | subScene (i : Nat)
  /-- textureHolder.destroy(device). -/
  | texHolder
  /-- Teardown of the FLVERData in model slot i (ModelHolder.destroy body). -/
  | modelSlot (i : Nat)
deriving DecidableEq

/-- ModelHolder.destroy: destroy the FLVERData of every present slot, in
index order. -/
def ModelHolder.destroyEvents (m : ModelHolder) : List DestroyEvent :=
  (List.range m.flverData.length).filterMap fun i =>
    match m.flverData.get? i with
    | some (some _) => some (DestroyEvent.modelSlot i)
    | _ => none

/-- DKSRenderer.destroy (src/dks/scenes.ts:98-104): super.destroy, then each
registered sub-scene renderer in registration order, then the texture holder,
then the model holder. -/
def DKSRenderer.destroy (r : DKSRenderer) : List DestroyEvent :=
  [DestroyEvent.base]
    ++ (List.range r.sceneRenderers.length).map DestroyEvent.subScene
    ++ [DestroyEvent.texHolder]
    ++ r.modelHolder.destroyEvents

/-- DataFetcher.calcProgress: sum the progress fractions of the registered
Progressables and divide by the list length.  JS numbers are modelled as
rationals. -/
def calcProgress (fileProgressables : List ℚ) : ℚ :=
  fileProgressables.sum / (fileProgressables.length : ℚ)

/-- One observable operation on the DataFetcher: either fetchData registers a
new task (whose Progressable starts at the given fraction), or the onProgress
callback of the already-registered task i fires with its current fraction. -/
inductive FetchOp where
  | fetchData (p0 : ℚ)
  | onProgress (i : Nat) (q : ℚ)
deriving DecidableEq

/-- One step of the DataFetcher: fetchData pushes the new task and only then
reports (this.setProgress() after the push); an onProgress callback updates
the task and reports.  Every report carries the task list it was computed
from together with the reported aggregate. -/
def stepFetcher (ps : List ℚ) : FetchOp → List ℚ × (List ℚ × ℚ)
  | FetchOp.fetchData p0 =>
    ((ps ++ [p0]), ((ps ++ [p0]), calcProgress (ps ++ [p0])))
  | FetchOp.onProgress i q =>
    ((ps.set i q), ((ps.set i q), calcProgress (ps.set i q)))

/-- Run a sequence of DataFetcher operations from a task list, collecting the
final task list and the log of reports to the progress meter. -/
def runFetcherFrom (ps : List ℚ) : List FetchOp → List ℚ × List (List ℚ × ℚ)
  | [] => (ps, [])
  | op :: rest =>
    let s := stepFetcher ps op
    let r := runFetcherFrom s.1 rest
    (r.1, s.2 :: r.2)

/-- Run a sequence of DataFetcher operations from the initial empty task
list of a freshly constructed fetcher. -/
def runFetcher (ops : List FetchOp) : List ℚ × List (List ℚ × ℚ) :=
  runFetcherFrom [] ops

/-- Well-formedness of an operation sequence: the onProgress callback of a
task can only fire once that task has been registered, so its index is below
the number of fetchData calls seen so far. -/
def wfOps (n : Nat) : List FetchOp → Bool
  | [] => true
  | FetchOp.fetchData _ :: rest => wfOps (n + 1) rest
  | FetchOp.onProgress i _ :: rest => decide (i < n) && wfOps n rest

/-- Paths of the lookup events of a trace, in order. -/
def lookupEvents (tr : List Event) : List String :=
  tr.filterMap fun e =>
    match e with
    | Event.lookup p => some p
    | _ => none

/-- Drop the console-log events of a trace. -/
def scrubLogs (tr : List Event) : List Event :=
  tr.filter fun e =>
    match e with
    | Event.log _ => false
    | _ => true

/-- Truth of an Except result. -/
def isOkE {α : Type} : Except String α → Bool
  | Except.ok _ => true
  | Except.error _ => false

/-- Executable success condition for one split-bank record, mirroring the
assertion chain of processRecord. -/
def validRecord (ext : Externals) (r : FileRecord) : Bool :=
  jsEndsWith r.name ".tpf.dcx" &&
    match ext.decompressBuffer r.buffer with
    | Except.error _ => false
    | Except.ok d =>
      match ext.parseTPF d with
      | Except.error _ => false
      | Except.ok tpf =>
        match tpf.textures with
        | [t] => normalizeDeclared r.name == jsToLower t.name
        | _ => false

/- Concrete load scenario used to exercise the theorems below: scene
   m10_01_00_00 with a bulk archive holding its placement table, one
   model-kind entry whose geometry has two batches, one non-model entry,
   one split bank with a single record, three empty split banks, and a
   loose container with two textures. -/

def texX : Texture := ⟨"x"⟩

def flvA : FLVER := ⟨[7, 8]⟩

def msbA : MSB := ⟨[⟨0, "/map/m10/mod.flver.dcx"⟩, ⟨1, ""⟩]⟩

def mtdA : BND3 := ⟨["mtdA"]⟩

def arcA : CRG1Arc := ⟨[
  ("/map/MapStudio/m10_01_00_00.msb", [2]),
  ("/map/m10/mod.flver.dcx", [3]),
  ("/map/m10/m10_0000.tpfbhd", [10]), ("/map/m10/m10_0000.tpfbdt", [11]),
  ("/map/m10/m10_0001.tpfbhd", [12]), ("/map/m10/m10_0001.tpfbdt", [13]),
  ("/map/m10/m10_0002.tpfbhd", [14]), ("/map/m10/m10_0002.tpfbdt", [15]),
  ("/map/m10/m10_0003.tpfbhd", [16]), ("/map/m10/m10_0003.tpfbdt", [17]),
  ("/map/m10/m10_9999.tpf.dcx", [30])]⟩

def recX : FileRecord := ⟨"X.tpf.dcx", [20]⟩

def extA : Externals where
  decompressBuffer := fun b => Except.ok b
  parseCRG1 := fun b => if b = [0] then Except.ok arcA else Except.error "bad crg1"
  parseMSB := fun b _ => if b = [2] then Except.ok msbA else Except.error "bad msb"
  parseBND3 := fun _ => Except.ok mtdA
  parseBHD := fun hb db =>
    if hb = [10] ∧ db = [11] then Except.ok ⟨[recX]⟩
    else if hb = [12] ∧ db = [13] then Except.ok ⟨[]⟩
    else if hb = [14] ∧ db = [15] then Except.ok ⟨[]⟩
    else if hb = [16] ∧ db = [17] then Except.ok ⟨[]⟩
    else Except.error "bad bhd"
  parseTPF := fun b =>
    if b = [20] then Except.ok ⟨[texX]⟩
    else if b = [30] then Except.ok ⟨[⟨"l1"⟩, ⟨"l2"⟩]⟩
    else Except.error "bad tpf"
  parseFLVER := fun b => if b = [3] then Except.ok flvA else Except.error "bad flver"

def netA : String → Except String Buffer := fun u =>
  if u = "dks/m10_01_00_00_arc.crg1" then Except.ok [0]
  else if u = "dks/mtd/Mtd.mtdbnd" then Except.ok [1]
  else Except.error "404"

/-- The resource namespace as populated by the scenario load. -/
def rsA : ResourceSystem := ⟨arcA.Files ++ [("mtd/Mtd.mtdbnd", [1])]⟩

/-- A bank record whose declared name contains the texture-container suffix
twice; the name still ends with the suffix, so the first assertion passes. -/
def recW : FileRecord := ⟨"A.tpf.dcxB.tpf.dcx", [52]⟩

/-- Decoders for the double-suffix bank scenario. -/
def extW : Externals where
  decompressBuffer := fun b => Except.ok b
  parseCRG1 := fun _ => Except.error "unused"
  parseMSB := fun _ _ => Except.error "unused"
  parseBND3 := fun _ => Except.ok mtdA
  parseBHD := fun hb db =>
    if hb = [50] ∧ db = [51] then Except.ok ⟨[recW]⟩ else Except.error "bad bhd"
  parseTPF := fun b =>
    if b = [52] then Except.ok ⟨[⟨"ab.tpf.dcx"⟩]⟩ else Except.error "bad tpf"
  parseFLVER := fun _ => Except.error "unused"

def rsW : ResourceSystem := ⟨[("w.tpfbhd", [50]), ("w.tpfbdt", [51])]⟩

/-- Decoders identical to the scenario ones except for the material-container
decoder, whose output differs. -/
def extB : Externals := { extA with parseBND3 := fun _ => Except.ok ⟨["mtdB"]⟩ }

def thA : DDSTextureHolder := ⟨[⟨"x"⟩, ⟨"l1"⟩, ⟨"l2"⟩]⟩

def mhA : ModelHolder := ⟨[some ⟨flvA⟩, none]⟩

def rendA : DKSRenderer := ⟨[⟨thA, mhA, msbA⟩], thA, mhA⟩


/- Theorems.  First, generic run and decomposition lemmas for the load
   computation; then per-claim results. -/

theorem LoadM.bind_def {α β : Type} (x : LoadM α) (f : α → LoadM β) :
    x >>= f = LoadM.bind x f := rfl

theorem LoadM.eta {α : Type} (x : LoadM α) : x = (x.1, x.2) := rfl

theorem LoadM.bind_fst {α β : Type} (x : LoadM α) (f : α → LoadM β) :
    ∃ t2, (x >>= f).1 = x.1 ++ t2 := by
  obtain ⟨tr, r⟩ := x
  cases r with
  | ok a => exact ⟨(f a).1, rfl⟩
  | error e => exact ⟨[], (List.append_nil tr).symm⟩

theorem LoadM.bind_snd_error {α β : Type} (x : LoadM α) (f : α → LoadM β) (e : String)
    (h : x.2 = Except.error e) : (x >>= f).2 = Except.error e := by
  obtain ⟨tr, r⟩ := x
  cases r with
  | ok a => exact absurd h (by simp)
  | error e' => cases h; rfl

theorem LoadM.bind_eq_ok {α β : Type} {x : LoadM α} {f : α → LoadM β} {tr : List Event} {b : β}
    (h : (x >>= f) = (tr, Except.ok b)) :
    ∃ tr1 a tr2, x = (tr1, Except.ok a) ∧ f a = (tr2, Except.ok b) ∧ tr = tr1 ++ tr2 := by
  obtain ⟨tr0, r⟩ := x
  cases r with
  | ok a =>
    have h1 : tr0 ++ (f a).1 = tr := congrArg Prod.fst h
    have h2 : (f a).2 = Except.ok b := congrArg Prod.snd h
    exact ⟨tr0, a, (f a).1, rfl, by rw [LoadM.eta (f a), h2], h1.symm⟩
  | error e =>
    have h2 : (Except.error e : Except String β) = Except.ok b := congrArg Prod.snd h
    exact absurd h2 (by simp)

theorem bind_emit_eq_ok {β : Type} {ev : Event} {f : Unit → LoadM β} {tr : List Event} {b : β}
    (h : (emitE ev >>= f) = (tr, Except.ok b)) :
    ∃ tr2, f () = (tr2, Except.ok b) ∧ tr = ev :: tr2 := by
  obtain ⟨tr1, a, tr2, h1, h2, h3⟩ := LoadM.bind_eq_ok h
  have h4 : ([ev] : List Event) = tr1 := congrArg Prod.fst h1
  exact ⟨tr2, h2, by rw [h3, ← h4]; rfl⟩

theorem bind_liftE_eq_ok {α β : Type} {x : Except String α} {f : α → LoadM β}
    {tr : List Event} {b : β} (h : (liftE x >>= f) = (tr, Except.ok b)) :
    ∃ a, x = Except.ok a ∧ f a = (tr, Except.ok b) := by
  obtain ⟨tr1, a, tr2, h1, h2, h3⟩ := LoadM.bind_eq_ok h
  have h4 : ([] : List Event) = tr1 := congrArg Prod.fst h1
  have h5 : x = Except.ok a := congrArg Prod.snd h1
  refine ⟨a, h5, ?_⟩
  rw [h2, h3, ← h4]
  rfl

theorem bind_jsDeref_eq_ok {α β : Type} {x : Option α} {f : α → LoadM β}
    {tr : List Event} {b : β} (h : (jsDeref x >>= f) = (tr, Except.ok b)) :
    ∃ a, x = some a ∧ f a = (tr, Except.ok b) := by
  cases x with
  | some a =>
    obtain ⟨tr1, a', tr2, h1, h2, h3⟩ := LoadM.bind_eq_ok h
    have h4 : ([] : List Event) = tr1 := congrArg Prod.fst h1
    have h5 : (Except.ok a : Except String α) = Except.ok a' := congrArg Prod.snd h1
    cases h5
    refine ⟨a, rfl, ?_⟩
    rw [h2, h3, ← h4]
    rfl
  | none =>
    obtain ⟨tr1, a', tr2, h1, h2, h3⟩ := LoadM.bind_eq_ok h
    have h5 : (Except.error "TypeError: undefined" : Except String α) = Except.ok a' :=
      congrArg Prod.snd h1
    exact absurd h5 (by simp)

theorem bind_assert_eq_ok {β : Type} {p : Prop} [Decidable p] {f : Unit → LoadM β}
    {tr : List Event} {b : β} (h : (assertL p >>= f) = (tr, Except.ok b)) :
    p ∧ f () = (tr, Except.ok b) := by
  by_cases hp : p
  · obtain ⟨tr1, a, tr2, h1, h2, h3⟩ := LoadM.bind_eq_ok h
    have h4 : ([] : List Event) = tr1 := by
      have h6 := congrArg Prod.fst h1
      simp only [assertL, if_pos hp] at h6
      exact h6
    refine ⟨hp, ?_⟩
    rw [h2, h3, ← h4]
    rfl
  · obtain ⟨tr1, a, tr2, h1, h2, h3⟩ := LoadM.bind_eq_ok h
    have h5 : (Except.error "Assert fail" : Except String Unit) = Except.ok a := by
      have h6 := congrArg Prod.snd h1
      simp only [assertL, throwE, if_neg hp] at h6
      exact h6
    exact absurd h5 (by simp)

theorem pure_eq_ok {α : Type} {a : α} {tr : List Event} {b : α}
    (h : (pure a : LoadM α) = (tr, Except.ok b)) : tr = [] ∧ b = a := by
  have h1 : ([] : List Event) = tr := congrArg Prod.fst h
  have h2 : (Except.ok a : Except String α) = Except.ok b := congrArg Prod.snd h
  cases h2
  exact ⟨h1.symm, rfl⟩

theorem isOkE_iff_ok {α : Type} (x : Except String α) :
    isOkE x = true ↔ ∃ a, x = Except.ok a := by
  cases x <;> simp [isOkE]

theorem getAssoc_setAssoc_self (l : List (String × Buffer)) (k : String) (v : Buffer) :
    getAssoc (setAssoc l k v) k = some v := by
  induction l with
  | nil => simp [setAssoc, getAssoc]
  | cons kv rest ih =>
    obtain ⟨k', v'⟩ := kv
    by_cases hk : k' = k
    · simp [setAssoc, hk, getAssoc]
    · simp [setAssoc, hk, getAssoc, ih]

/-- C6: mounting a buffer twice under the same path leaves the later buffer
bound to the path; the Map.set call of mountFile silently overwrites the
earlier binding with no merge, for every starting namespace state. -/
theorem dks_c6_mount_last_write_wins (rs : ResourceSystem) (p : String) (b1 b2 : Buffer) :
    ((rs.mountFile p b1).mountFile p b2).lookupFile p = some b2 := by
  simp [ResourceSystem.mountFile, ResourceSystem.lookupFile, getAssoc_setAssoc_self]

theorem mem_destroyEvents_model {m : ModelHolder} {e : DestroyEvent}
    (he : e ∈ m.destroyEvents) : ∃ i, e = DestroyEvent.modelSlot i := by
  unfold ModelHolder.destroyEvents at he
  rw [List.mem_filterMap] at he
  obtain ⟨i, _, hfi⟩ := he
  rcases hg : m.flverData.get? i with _ | fd
  · rw [hg] at hfi; simp at hfi
  · rcases fd with _ | f
    · rw [hg] at hfi; simp at hfi
    · rw [hg] at hfi
      simp only [Option.some.injEq] at hfi
      exact ⟨i, hfi.symm⟩

/-- C8: destroy on the scene aggregate releases the GPU resources of the
named components in exactly the claimed order: the registered sub-scene
renderers in registration order, then the texture holder, then the model
holder slots.  The destruction of the BasicRendererHelper base class
precedes all of these and is filtered out here, since the claim enumerates
only the three owned component groups. -/
theorem dks_c8_destroy_order (r : DKSRenderer) :
    (DKSRenderer.destroy r).filter (fun e => e ≠ DestroyEvent.base) =
      (List.range r.sceneRenderers.length).map DestroyEvent.subScene
        ++ [DestroyEvent.texHolder] ++ r.modelHolder.destroyEvents := by
  unfold DKSRenderer.destroy
  rw [List.filter_append, List.filter_append, List.filter_append]
  have h1 : (([DestroyEvent.base] : List DestroyEvent).filter
      (fun e => e ≠ DestroyEvent.base)) = [] := by simp
  have h2 : (((List.range r.sceneRenderers.length).map DestroyEvent.subScene).filter
      (fun e => e ≠ DestroyEvent.base)) =
      (List.range r.sceneRenderers.length).map DestroyEvent.subScene := by
    rw [List.filter_eq_self]
    intro e he
    rw [List.mem_map] at he
    obtain ⟨i, _, hi⟩ := he
    subst hi
    simp
  have h3 : (([DestroyEvent.texHolder] : List DestroyEvent).filter
      (fun e => e ≠ DestroyEvent.base)) = [DestroyEvent.texHolder] := by simp
  have h4 : (r.modelHolder.destroyEvents.filter (fun e => e ≠ DestroyEvent.base)) =
      r.modelHolder.destroyEvents := by
    rw [List.filter_eq_self]
    intro e he
    obtain ⟨i, hi⟩ := mem_destroyEvents_model he
    subst hi
    simp
  rw [h1, h2, h3, h4]
  simp

/-- C9: the loose-archive texture path registers every texture of a decodable
loose container unconditionally: whenever the container file is present and
the decompression and decode succeed, the load step succeeds and registers
exactly the decoded textures, whatever their number and names; no assertion
is evaluated on this path. -/
theorem dks_c9_loose_path_unvalidated (ext : Externals) (h : DDSTextureHolder)
    (rs : ResourceSystem) (baseName : String) (b d : Buffer) (tpf : TPF)
    (h1 : rs.lookupFile (baseName ++ ".tpf.dcx") = some b)
    (h2 : ext.decompressBuffer b = Except.ok d)
    (h3 : ext.parseTPF d = Except.ok tpf) :
    loadTextureTPFDCX ext h rs baseName =
      (Event.lookup (baseName ++ ".tpf.dcx") ::
         tpf.textures.map (fun t => Event.register t.name),
       Except.ok (h.addTextures tpf.textures)) := by
  unfold loadTextureTPFDCX
  rw [h1]
  simp [h2, h3, emitE, jsDeref, liftE, addTexturesM, LoadM.bind_def, LoadM.bind]

/-- C9 witness: the scenario loose container holds two textures whose names
bear no relation to the container name, and both are registered. -/
theorem dks_c9_witness :
    loadTextureTPFDCX extA DDSTextureHolder.empty rsA "/map/m10/m10_9999" =
      ([Event.lookup "/map/m10/m10_9999.tpf.dcx",
        Event.register "l1", Event.register "l2"],
       Except.ok ⟨[⟨"l1"⟩, ⟨"l2"⟩]⟩) := by
  have h := dks_c9_loose_path_unvalidated extA DDSTextureHolder.empty rsA "/map/m10/m10_9999"
    [30] [30] ⟨[⟨"l1"⟩, ⟨"l2"⟩]⟩ (by rfl) (by rfl) (by rfl)
  exact h

theorem runFetcherFrom_reports (ops : List FetchOp) :
    ∀ (ps0 : List ℚ) (s : List ℚ) (v : ℚ),
      (s, v) ∈ (runFetcherFrom ps0 ops).2 → v = calcProgress s := by
  induction ops with
  | nil => intro ps0 s v hv; simp [runFetcherFrom] at hv
  | cons op rest ih =>
    intro ps0 s v hv
    simp only [runFetcherFrom, List.mem_cons] at hv
    rcases hv with hv | hv
    · cases op with
      | fetchData p0 =>
        simp only [stepFetcher, Prod.mk.injEq] at hv
        rw [hv.1, hv.2]
      | onProgress i q =>
        simp only [stepFetcher, Prod.mk.injEq] at hv
        rw [hv.1, hv.2]
    · exact ih _ s v hv

/-- C5: every aggregate value reported to the progress meter during a run of
DataFetcher operations is exactly calcProgress of the task list at the
report, the unweighted arithmetic mean of the registered progress fractions;
and appending a fresh task at fraction 0 cannot increase the mean as long as
all recorded fractions are nonnegative. -/
theorem dks_c5_progress_mean (ops : List FetchOp) (ps : List ℚ) :
    (∀ (s : List ℚ) (v : ℚ), (s, v) ∈ (runFetcher ops).2 → v = calcProgress s) ∧
    ((∀ q ∈ ps, 0 ≤ q) → calcProgress (ps ++ [0]) ≤ calcProgress ps) := by
  constructor
  · exact fun s v hv => runFetcherFrom_reports ops [] s v hv
  · intro hq
    rcases eq_or_ne ps [] with hps | hps
    · subst hps
      simp [calcProgress]
    · have hlen : 0 < ps.length := List.length_pos.mpr hps
      have hsum : 0 ≤ ps.sum := List.sum_nonneg hq
      unfold calcProgress
      rw [List.sum_append, List.length_append]
      simp only [List.sum_cons, List.sum_nil, add_zero, List.length_cons, List.length_nil]
      have hl0 : (0 : ℚ) < (ps.length : ℚ) := by exact_mod_cast hlen
      have hl1 : (ps.length : ℚ) ≤ ((ps.length + 1 : ℕ) : ℚ) := by
        push_cast
        linarith
      exact div_le_div_of_nonneg_left hsum hl0 hl1

/-- C5 witness: registering a task at fraction 0 next to a finished task
drops the mean from 1 to 1/2. -/
theorem dks_c5_witness :
    (∀ q ∈ ([1] : List ℚ), 0 ≤ q) ∧
      calcProgress (([1] : List ℚ) ++ [0]) ≤ calcProgress ([1] : List ℚ) :=
  ⟨by decide, (dks_c5_progress_mean [] [1]).2 (by decide)⟩

theorem runFetcherFrom_reports_nonempty (ops : List FetchOp) :
    ∀ (ps0 : List ℚ), wfOps ps0.length ops = true →
      ∀ (s : List ℚ) (v : ℚ), (s, v) ∈ (runFetcherFrom ps0 ops).2 → 1 ≤ s.length := by
  induction ops with
  | nil => intro ps0 _ s v hv; simp [runFetcherFrom] at hv
  | cons op rest ih =>
    intro ps0 hwf s v hv
    simp only [runFetcherFrom, List.mem_cons] at hv
    cases op with
    | fetchData p0 =>
      simp only [wfOps] at hwf
      rcases hv with hv | hv
      · simp only [stepFetcher, Prod.mk.injEq] at hv
        rw [hv.1]
        simp
      · refine ih (ps0 ++ [p0]) ?_ s v hv
        simpa [List.length_append] using hwf
    | onProgress i q =>
      simp only [wfOps, Bool.and_eq_true, decide_eq_true_eq] at hwf
      obtain ⟨hi, hwf'⟩ := hwf
      rcases hv with hv | hv
      · simp only [stepFetcher, Prod.mk.injEq] at hv
        rw [hv.1, List.length_set]
        omega
      · refine ih (ps0.set i q) ?_ s v hv
        simpa [List.length_set] using hwf'

/-- C10: the aggregate is the sum of the registered fractions divided by the
task-list length, and in every well-formed run (onProgress only fires for a
registered task) each report is computed over a nonempty task list, because
fetchData pushes the new task before its report: the zero-task division is
unreachable at report time. -/
theorem dks_c10_no_zero_division (ops : List FetchOp) (h : wfOps 0 ops = true) :
    (∀ ps : List ℚ, calcProgress ps = ps.sum / (ps.length : ℚ)) ∧
    (∀ (s : List ℚ) (v : ℚ), (s, v) ∈ (runFetcher ops).2 → 1 ≤ s.length) := by
  refine ⟨fun ps => rfl, ?_⟩
  exact fun s v hv => runFetcherFrom_reports_nonempty ops [] (by simpa using h) s v hv

/-- C10 witness: a run that registers one task and then receives one progress
callback reports twice, each time over a nonempty task list. -/
theorem dks_c10_witness :
    wfOps 0 [FetchOp.fetchData 0, FetchOp.onProgress 0 1] = true ∧
    (∀ (s : List ℚ) (v : ℚ),
      (s, v) ∈ (runFetcher [FetchOp.fetchData 0, FetchOp.onProgress 0 1]).2 → 1 ≤ s.length) :=
  ⟨by decide, (dks_c10_no_zero_division [FetchOp.fetchData 0, FetchOp.onProgress 0 1]
      (by decide)).2⟩

theorem resolveModels_cons_ok_type0 {ext : Externals} {rs : ResourceSystem} {m : MSBModel}
    {ms : List MSBModel} {tr : List Event} {slots : List (Option FLVER)} (hm : m.type = 0)
    (h : resolveModels ext rs (m :: ms) = (tr, Except.ok slots)) :
    ∃ b d fl tr' rest, rs.lookupFile m.flverPath = some b ∧
      ext.decompressBuffer b = Except.ok d ∧ ext.parseFLVER d = Except.ok fl ∧
      resolveModels ext rs ms = (tr', Except.ok rest) ∧
      slots = (if 0 < fl.batches.length then some fl else none) :: rest ∧
      tr = Event.lookup m.flverPath :: tr' := by
  rw [resolveModels, if_pos hm] at h
  obtain ⟨tr2, h, htr⟩ := bind_emit_eq_ok h
  obtain ⟨b, hb, h⟩ := bind_jsDeref_eq_ok h
  obtain ⟨d, hd, h⟩ := bind_liftE_eq_ok h
  obtain ⟨fl, hfl, h⟩ := bind_liftE_eq_ok h
  obtain ⟨tr3, rest, tr4, h1, h2, h3⟩ := LoadM.bind_eq_ok h
  obtain ⟨h4, h5⟩ := pure_eq_ok h2
  refine ⟨b, d, fl, tr3, rest, hb, hd, hfl, h1, h5, ?_⟩
  rw [htr, h3, h4, List.append_nil]

theorem resolveModels_cons_ok_other {ext : Externals} {rs : ResourceSystem} {m : MSBModel}
    {ms : List MSBModel} {tr : List Event} {slots : List (Option FLVER)} (hm : ¬m.type = 0)
    (h : resolveModels ext rs (m :: ms) = (tr, Except.ok slots)) :
    ∃ rest, resolveModels ext rs ms = (tr, Except.ok rest) ∧ slots = none :: rest := by
  rw [resolveModels, if_neg hm] at h
  obtain ⟨tr3, rest, tr4, h1, h2, h3⟩ := LoadM.bind_eq_ok h
  obtain ⟨h4, h5⟩ := pure_eq_ok h2
  refine ⟨rest, ?_, h5⟩
  rw [h3, h4, List.append_nil]
  exact h1

theorem resolveModels_ok_char (ext : Externals) (rs : ResourceSystem) :
    ∀ (ms : List MSBModel) (tr : List Event) (slots : List (Option FLVER)),
      resolveModels ext rs ms = (tr, Except.ok slots) →
      slots.length = ms.length ∧
      ∀ (i : ℕ) (m : MSBModel), ms.get? i = some m →
        ∃ sl, slots.get? i = some sl ∧
          (sl.isSome = true ↔
            (m.type = 0 ∧ ∃ b d fl,
              rs.lookupFile m.flverPath = some b ∧
              ext.decompressBuffer b = Except.ok d ∧
              ext.parseFLVER d = Except.ok fl ∧ 0 < fl.batches.length)) := by
  intro ms
  induction ms with
  | nil =>
    intro tr slots h
    obtain ⟨-, h5⟩ := pure_eq_ok h
    subst h5
    exact ⟨rfl, by intro i m hi; simp at hi⟩
  | cons m ms ih =>
    intro tr slots h
    by_cases hm : m.type = 0
    · obtain ⟨b, d, fl, tr', rest, hb, hd, hfl, hrec, hslots, -⟩ :=
        resolveModels_cons_ok_type0 hm h
      obtain ⟨hlen, hchar⟩ := ih tr' rest hrec
      subst hslots
      refine ⟨by simp [hlen], ?_⟩
      intro i m' hi
      cases i with
      | zero =>
        simp only [List.get?] at hi
        cases hi
        refine ⟨if 0 < fl.batches.length then some fl else none, rfl, ?_⟩
        by_cases hbat : 0 < fl.batches.length
        · rw [if_pos hbat]
          exact iff_of_true rfl ⟨hm, b, d, fl, hb, hd, hfl, hbat⟩
        · rw [if_neg hbat]
          refine iff_of_false (by simp) ?_
          rintro ⟨-, b', d', fl', hb', hd', hfl', hbat'⟩
          rw [hb] at hb'
          cases hb'
          rw [hd] at hd'
          cases hd'
          rw [hfl] at hfl'
          cases hfl'
          exact hbat hbat'
      | succ i =>
        simp only [List.get?] at hi ⊢
        exact hchar i m' hi
    · obtain ⟨rest, hrec, hslots⟩ := resolveModels_cons_ok_other hm h
      obtain ⟨hlen, hchar⟩ := ih tr rest hrec
      subst hslots
      refine ⟨by simp [hlen], ?_⟩
      intro i m' hi
      cases i with
      | zero =>
        simp only [List.get?] at hi
        cases hi
        refine ⟨none, rfl, ?_⟩
        refine iff_of_false (by simp) ?_
        rintro ⟨hm', -⟩
        exact hm hm'
      | succ i =>
        simp only [List.get?] at hi ⊢
        exact hchar i m' hi

/-- C1 (amended): in the model resolution loop, a load that completes yields
a slot array aligned 1:1 with the placement entries in which slot i is
present exactly when entry i is model-kind and its file decodes to geometry
with at least one batch; but a model-kind entry whose referenced file is
absent from the namespace makes the whole resolution throw (the undefined
lookup result is handed to the decompressor), rather than leaving the slot
empty. -/
theorem dks_c1_model_slot_resolution (ext : Externals) (rs : ResourceSystem)
    (ms : List MSBModel) :
    (∀ (tr : List Event) (slots : List (Option FLVER)),
      resolveModels ext rs ms = (tr, Except.ok slots) →
      slots.length = ms.length ∧
      ∀ (i : ℕ) (m : MSBModel), ms.get? i = some m →
        ∃ sl, slots.get? i = some sl ∧
          (sl.isSome = true ↔
            (m.type = 0 ∧ ∃ b d fl,
              rs.lookupFile m.flverPath = some b ∧
              ext.decompressBuffer b = Except.ok d ∧
              ext.parseFLVER d = Except.ok fl ∧ 0 < fl.batches.length))) ∧
    (∀ (i : ℕ) (m : MSBModel), ms.get? i = some m → m.type = 0 →
      rs.lookupFile m.flverPath = none →
      isOkE (resolveModels ext rs ms).2 = false) := by
  refine ⟨fun tr slots h => resolveModels_ok_char ext rs ms tr slots h, ?_⟩
  induction ms with
  | nil => intro i m hi; simp at hi
  | cons m ms ih =>
    intro i m' hi hty hlk
    by_contra hok
    rw [Bool.not_eq_false, isOkE_iff_ok] at hok
    obtain ⟨slots, hslots⟩ := hok
    have heq : resolveModels ext rs (m :: ms) =
        ((resolveModels ext rs (m :: ms)).1, Except.ok slots) := by
      rw [LoadM.eta (resolveModels ext rs (m :: ms)), hslots]
    cases i with
    | zero =>
      simp only [List.get?] at hi
      cases hi
      obtain ⟨b, -, -, -, -, hb, -⟩ := resolveModels_cons_ok_type0 hty heq
      rw [hlk] at hb
      cases hb
    | succ i =>
      simp only [List.get?] at hi
      have htail : ∃ tr' rest, resolveModels ext rs ms = (tr', Except.ok rest) := by
        by_cases hm : m.type = 0
        · obtain ⟨-, -, -, tr', rest, -, -, -, hrec, -, -⟩ :=
            resolveModels_cons_ok_type0 hm heq
          exact ⟨tr', rest, hrec⟩
        · obtain ⟨rest, hrec, -⟩ := resolveModels_cons_ok_other hm heq
          exact ⟨_, rest, hrec⟩
      obtain ⟨tr', rest, hrec⟩ := htail
      have := ih i m' hi hty hlk
      rw [hrec] at this
      simp [isOkE] at this

/-- C1 counterexample: a placement table with a single model-kind entry whose
referenced file is absent from the namespace.  The claim states that this
leaves the slot empty without failing the load; the code instead hands the
undefined lookup result to the decompressor and the resolution throws, so no
slot array is produced at all. -/
theorem dks_c1_counterexample :
    (ResourceSystem.empty.lookupFile "missing" = none) ∧
    ([(⟨0, "missing"⟩ : MSBModel)].get? 0).map MSBModel.type = some 0 ∧
    resolveModels extA ResourceSystem.empty [⟨0, "missing"⟩] =
      ([Event.lookup "missing"], Except.error "TypeError: undefined") :=
  ⟨rfl, rfl, rfl⟩

/-- C1 witness: the amended theorem applied to the absent-file scenario
concludes that the resolution does not succeed. -/
theorem dks_c1_witness :
    isOkE (resolveModels extA ResourceSystem.empty [⟨0, "missing"⟩]).2 = false :=
  (dks_c1_model_slot_resolution extA ResourceSystem.empty [⟨0, "missing"⟩]).2
    0 ⟨0, "missing"⟩ rfl rfl rfl

theorem processRecord_isOk (ext : Externals) (h : DDSTextureHolder) (r : FileRecord) :
    isOkE (processRecord ext h r).2 = validRecord ext r := by
  unfold processRecord validRecord
  by_cases h1 : jsEndsWith r.name ".tpf.dcx" = true
  · rcases h2 : ext.decompressBuffer r.buffer with e | d
    · simp [h1, h2, assertL, liftE, throwE, LoadM.bind_def, LoadM.bind, isOkE]
    · rcases h3 : ext.parseTPF d with e | tpf
      · simp [h1, h2, h3, assertL, liftE, throwE, LoadM.bind_def, LoadM.bind, isOkE]
      · rcases h4 : tpf.textures with _ | ⟨t, ts⟩
        · simp [h1, h2, h3, h4, assertL, liftE, throwE, jsDeref,
            LoadM.bind_def, LoadM.bind, isOkE]
        · rcases ts with _ | ⟨t2, ts2⟩
          · by_cases h5 : normalizeDeclared r.name = jsToLower t.name
            · simp [h1, h2, h3, h4, h5, assertL, liftE, throwE, jsDeref, addTexturesM,
                LoadM.bind_def, LoadM.bind, isOkE]
            · simp [h1, h2, h3, h4, h5, assertL, liftE, throwE, jsDeref, addTexturesM,
                LoadM.bind_def, LoadM.bind, isOkE]
          · have hne : ¬(tpf.textures.length = 1) := by rw [h4]; simp
            simp [h1, h2, h3, h4, hne, assertL, liftE, throwE, jsDeref,
              LoadM.bind_def, LoadM.bind, isOkE]
  · simp [h1, assertL, liftE, throwE, LoadM.bind_def, LoadM.bind, isOkE]

theorem processRecord_success_shape (ext : Externals) (h : DDSTextureHolder) (r : FileRecord)
    (d : Buffer) (tpf : TPF) (t : Texture)
    (h1 : jsEndsWith r.name ".tpf.dcx" = true)
    (h2 : ext.decompressBuffer r.buffer = Except.ok d)
    (h3 : ext.parseTPF d = Except.ok tpf)
    (h4 : tpf.textures = [t])
    (h5 : normalizeDeclared r.name = jsToLower t.name) :
    processRecord ext h r = ([Event.register t.name], Except.ok (h.addTextures [t])) := by
  unfold processRecord
  simp [h1, h2, h3, h4, h5, assertL, liftE, jsDeref, addTexturesM,
    LoadM.bind_def, LoadM.bind]

theorem processRecords_abort (ext : Externals) (h : DDSTextureHolder) (r : FileRecord)
    (rest : List FileRecord) (e : String)
    (hf : (processRecord ext h r).2 = Except.error e) :
    processRecords ext h (r :: rest) = ((processRecord ext h r).1, Except.error e) := by
  have hpr : processRecord ext h r = ((processRecord ext h r).1, Except.error e) := by
    rw [LoadM.eta (processRecord ext h r), hf]
  rw [processRecords, LoadM.bind_def, hpr]
  rfl

theorem loadMapTextures_abort_bank0 (ext : Externals) (h : DDSTextureHolder)
    (rs : ResourceSystem) (mapKey : String) (tr : List Event) (e : String)
    (hb : loadTextureBHD ext h rs ("/map/" ++ mapKey ++ "/" ++ mapKey ++ "_0000") =
      (tr, Except.error e)) :
    loadMapTextures ext h rs mapKey = (tr, Except.error e) := by
  rw [loadMapTextures, LoadM.bind_def, hb]
  rfl

/-- C2 (amended): for every record of a decoded split bank the pipeline
asserts that the declared name ends with ".tpf.dcx", that the decompressed
payload decodes to exactly one texture image, and that the declared name with
backslash path separators stripped, the FIRST OCCURRENCE of ".tpf.dcx"
removed (the JS replace with a plain string pattern), and lower-cased equals
the lower-cased embedded name; record processing succeeds exactly under
these conditions, on success the single texture is registered, a failing
record aborts its bank at that record, and a failing bank aborts the load
before any further bank is processed. -/
theorem dks_c2_bank_validation (ext : Externals) (h : DDSTextureHolder) (r : FileRecord) :
    (isOkE (processRecord ext h r).2 = validRecord ext r) ∧
    (∀ (d : Buffer) (tpf : TPF) (t : Texture),
      jsEndsWith r.name ".tpf.dcx" = true →
      ext.decompressBuffer r.buffer = Except.ok d →
      ext.parseTPF d = Except.ok tpf →
      tpf.textures = [t] →
      normalizeDeclared r.name = jsToLower t.name →
      processRecord ext h r = ([Event.register t.name], Except.ok (h.addTextures [t]))) ∧
    (∀ (rest : List FileRecord) (e : String),
      (processRecord ext h r).2 = Except.error e →
      processRecords ext h (r :: rest) = ((processRecord ext h r).1, Except.error e)) ∧
    (∀ (rs : ResourceSystem) (mapKey : String) (tr : List Event) (e : String),
      loadTextureBHD ext h rs ("/map/" ++ mapKey ++ "/" ++ mapKey ++ "_0000") =
        (tr, Except.error e) →
      loadMapTextures ext h rs mapKey = (tr, Except.error e)) :=
  ⟨processRecord_isOk ext h r,
   fun d tpf t h1 h2 h3 h4 h5 => processRecord_success_shape ext h r d tpf t h1 h2 h3 h4 h5,
   fun rest e hf => processRecords_abort ext h r rest e hf,
   fun rs mapKey tr e hb => loadMapTextures_abort_bank0 ext h rs mapKey tr e hb⟩

/-- C2 counterexample: the record named "A.tpf.dcxB.tpf.dcx" with embedded
texture name "ab.tpf.dcx".  Under the normalization stated by the claim
(strip the ".tpf.dcx" suffix) the two keys differ, so the claim demands a
fatal abort; the pipeline instead removes the first occurrence of
".tpf.dcx", obtains the matching key "ab.tpf.dcx", succeeds, and registers
the texture. -/
theorem dks_c2_counterexample :
    specDeclaredNameKey recW.name ≠ jsToLower "ab.tpf.dcx" ∧
    normalizeDeclared recW.name = jsToLower "ab.tpf.dcx" ∧
    loadTextureBHD extW DDSTextureHolder.empty rsW "w" =
      ([Event.lookup "w.tpfbhd", Event.lookup "w.tpfbdt", Event.register "ab.tpf.dcx"],
       Except.ok ⟨[⟨"ab.tpf.dcx"⟩]⟩) :=
  ⟨by decide, by rfl, by rfl⟩

/-- C2 witness: the scenario bank record "X.tpf.dcx" with embedded name "x"
passes all three assertions and is registered. -/
theorem dks_c2_witness :
    processRecord extA DDSTextureHolder.empty recX =
      ([Event.register "x"], Except.ok (DDSTextureHolder.empty.addTextures [texX])) :=
  (dks_c2_bank_validation extA DDSTextureHolder.empty recX).2.1 [20] ⟨[texX]⟩ texX
    (by rfl) (by rfl) (by rfl) (by rfl) (by rfl)

theorem scrubLogs_append (a b : List Event) :
    scrubLogs (a ++ b) = scrubLogs a ++ scrubLogs b := List.filter_append a b

theorem bind_congr_scrub {α β : Type} {x y : LoadM α} {f k : α → LoadM β}
    (hxy : x.2 = y.2 ∧ scrubLogs x.1 = scrubLogs y.1)
    (hcont : ∀ a, (f a).2 = (k a).2 ∧ scrubLogs (f a).1 = scrubLogs (k a).1) :
    (x >>= f).2 = (y >>= k).2 ∧ scrubLogs (x >>= f).1 = scrubLogs (y >>= k).1 := by
  obtain ⟨t1, r1⟩ := x
  obtain ⟨t2, r2⟩ := y
  obtain ⟨h1, h2⟩ := hxy
  have h1' : r1 = r2 := h1
  have h2' : scrubLogs t1 = scrubLogs t2 := h2
  subst h1'
  cases r1 with
  | ok a =>
    refine ⟨(hcont a).1, ?_⟩
    show scrubLogs (t1 ++ (f a).1) = scrubLogs (t2 ++ (k a).1)
    rw [scrubLogs_append, scrubLogs_append, h2', (hcont a).2]
  | error e => exact ⟨rfl, h2'⟩

theorem phaseFetch_ext_eq {e1 e2 : Externals} (hc : e1.parseCRG1 = e2.parseCRG1)
    (net : String → Except String Buffer) (id : String) :
    phaseFetch e1 net id = phaseFetch e2 net id := by
  unfold phaseFetch
  simp only [hc]

theorem phaseMSB_ext_eq {e1 e2 : Externals} (hm : e1.parseMSB = e2.parseMSB)
    (rs : ResourceSystem) (id : String) :
    phaseMSB e1 rs id = phaseMSB e2 rs id := by
  unfold phaseMSB
  simp only [hm]

theorem processRecord_ext_eq {e1 e2 : Externals} (hdc : e1.decompressBuffer = e2.decompressBuffer)
    (htp : e1.parseTPF = e2.parseTPF) (h : DDSTextureHolder) (r : FileRecord) :
    processRecord e1 h r = processRecord e2 h r := by
  unfold processRecord
  simp only [hdc, htp]

theorem processRecords_ext_eq {e1 e2 : Externals} (hdc : e1.decompressBuffer = e2.decompressBuffer)
    (htp : e1.parseTPF = e2.parseTPF) :
    ∀ (recs : List FileRecord) (h : DDSTextureHolder),
      processRecords e1 h recs = processRecords e2 h recs := by
  intro recs
  induction recs with
  | nil => intro h; rfl
  | cons r rest ih =>
    intro h
    rw [processRecords, processRecords, processRecord_ext_eq hdc htp]
    simp only [ih]

theorem loadTextureBHD_ext_eq {e1 e2 : Externals} (hdc : e1.decompressBuffer = e2.decompressBuffer)
    (htp : e1.parseTPF = e2.parseTPF) (hbhd : e1.parseBHD = e2.parseBHD)
    (h : DDSTextureHolder) (rs : ResourceSystem) (baseName : String) :
    loadTextureBHD e1 h rs baseName = loadTextureBHD e2 h rs baseName := by
  unfold loadTextureBHD
  simp only [hbhd, processRecords_ext_eq hdc htp]

theorem loadTextureTPFDCX_ext_eq {e1 e2 : Externals}
    (hdc : e1.decompressBuffer = e2.decompressBuffer) (htp : e1.parseTPF = e2.parseTPF)
    (h : DDSTextureHolder) (rs : ResourceSystem) (baseName : String) :
    loadTextureTPFDCX e1 h rs baseName = loadTextureTPFDCX e2 h rs baseName := by
  unfold loadTextureTPFDCX
  simp only [hdc, htp]

theorem loadMapTextures_ext_eq {e1 e2 : Externals}
    (hdc : e1.decompressBuffer = e2.decompressBuffer) (htp : e1.parseTPF = e2.parseTPF)
    (hbhd : e1.parseBHD = e2.parseBHD) (h : DDSTextureHolder) (rs : ResourceSystem)
    (mapKey : String) :
    loadMapTextures e1 h rs mapKey = loadMapTextures e2 h rs mapKey := by
  unfold loadMapTextures
  simp only [loadTextureBHD_ext_eq hdc htp hbhd, loadTextureTPFDCX_ext_eq hdc htp]

theorem resolveModels_ext_eq {e1 e2 : Externals}
    (hdc : e1.decompressBuffer = e2.decompressBuffer) (hfl : e1.parseFLVER = e2.parseFLVER)
    (rs : ResourceSystem) :
    ∀ ms : List MSBModel, resolveModels e1 rs ms = resolveModels e2 rs ms := by
  intro ms
  induction ms with
  | nil => rfl
  | cons m ms ih =>
    rw [resolveModels, resolveModels]
    simp only [hdc, hfl, ih]

theorem phasePost_ext_eq {e1 e2 : Externals}
    (hdc : e1.decompressBuffer = e2.decompressBuffer) (htp : e1.parseTPF = e2.parseTPF)
    (hbhd : e1.parseBHD = e2.parseBHD) (hfl : e1.parseFLVER = e2.parseFLVER)
    (rs : ResourceSystem) (id : String) (msb : MSB) :
    phasePost e1 rs id msb = phasePost e2 rs id msb := by
  unfold phasePost
  simp only [resolveModels_ext_eq hdc hfl, loadMapTextures_ext_eq hdc htp hbhd]

theorem phaseMtd_run_none (rs : ResourceSystem)
    (hlk : rs.lookupFile "mtd/Mtd.mtdbnd" = none) (ext : Externals) :
    phaseMtd ext rs =
      ([Event.lookup "mtd/Mtd.mtdbnd"], Except.error "TypeError: undefined") := by
  unfold phaseMtd
  simp [hlk, emitE, jsDeref, liftE, LoadM.bind_def, LoadM.bind]

theorem phaseMtd_run_some_err (ext : Externals) (rs : ResourceSystem) (b : Buffer) (e : String)
    (hlk : rs.lookupFile "mtd/Mtd.mtdbnd" = some b) (hp : ext.parseBND3 b = Except.error e) :
    phaseMtd ext rs = ([Event.lookup "mtd/Mtd.mtdbnd"], Except.error e) := by
  unfold phaseMtd
  simp [hlk, hp, emitE, jsDeref, liftE, LoadM.bind_def, LoadM.bind]

theorem phaseMtd_run_some_ok (ext : Externals) (rs : ResourceSystem) (b : Buffer) (m : BND3)
    (hlk : rs.lookupFile "mtd/Mtd.mtdbnd" = some b) (hp : ext.parseBND3 b = Except.ok m) :
    phaseMtd ext rs =
      ([Event.lookup "mtd/Mtd.mtdbnd", Event.log m], Except.ok ()) := by
  unfold phaseMtd
  simp [hlk, hp, emitE, jsDeref, liftE, LoadM.bind_def, LoadM.bind]

theorem phaseMtd_eq_ok {ext : Externals} {rs : ResourceSystem} {tr : List Event} {u : Unit}
    (h : phaseMtd ext rs = (tr, Except.ok u)) :
    ∃ b m, rs.lookupFile "mtd/Mtd.mtdbnd" = some b ∧ ext.parseBND3 b = Except.ok m ∧
      tr = [Event.lookup "mtd/Mtd.mtdbnd", Event.log m] := by
  rw [phaseMtd] at h
  obtain ⟨tr2, h, htr⟩ := bind_emit_eq_ok h
  obtain ⟨b, hb, h⟩ := bind_jsDeref_eq_ok h
  obtain ⟨m, hm, h⟩ := bind_liftE_eq_ok h
  have h4 : ([Event.log m] : List Event) = tr2 := congrArg Prod.fst h
  exact ⟨b, m, hb, hm, by rw [htr, ← h4]⟩

/-- C3 (amended): phase 4 decodes the mounted material-definition buffer and
prints the decoded container to the console log only; it is not handed to
the rendering collaborator.  Replacing the container decoder by any other
one that fails on exactly the same inputs leaves the load result and the
whole log-free event trace unchanged, and a completing load always carries
the decoded container in a console-log event. -/
theorem dks_c3_mtd_logged_not_forwarded (ext : Externals) (g : Buffer → Except String BND3)
    (net : String → Except String Buffer) (id : String)
    (halign : ∀ b e, ext.parseBND3 b = Except.error e ↔ g b = Except.error e) :
    ((createScene { ext with parseBND3 := g } net id).2 = (createScene ext net id).2 ∧
     scrubLogs (createScene { ext with parseBND3 := g } net id).1 =
       scrubLogs (createScene ext net id).1) ∧
    (∀ (tr : List Event) (r : DKSRenderer), createScene ext net id = (tr, Except.ok r) →
      ∃ b m, ext.parseBND3 b = Except.ok m ∧ Event.log m ∈ tr) := by
  constructor
  · have hmtd : ∀ rs1 : ResourceSystem,
        (phaseMtd { ext with parseBND3 := g } rs1).2 = (phaseMtd ext rs1).2 ∧
        scrubLogs (phaseMtd { ext with parseBND3 := g } rs1).1 =
          scrubLogs (phaseMtd ext rs1).1 := by
      intro rs1
      rcases hlk : rs1.lookupFile "mtd/Mtd.mtdbnd" with _ | b
      · rw [phaseMtd_run_none rs1 hlk, phaseMtd_run_none rs1 hlk]
        exact ⟨rfl, rfl⟩
      · rcases hg : g b with e | m1
        · have hx : ext.parseBND3 b = Except.error e := (halign b e).mpr hg
          rw [phaseMtd_run_some_err { ext with parseBND3 := g } rs1 b e hlk hg,
            phaseMtd_run_some_err ext rs1 b e hlk hx]
          exact ⟨rfl, rfl⟩
        · rcases hx : ext.parseBND3 b with e2 | m2
          · exact absurd ((halign b e2).mp hx) (by rw [hg]; simp)
          · rw [phaseMtd_run_some_ok { ext with parseBND3 := g } rs1 b m1 hlk hg,
              phaseMtd_run_some_ok ext rs1 b m2 hlk hx]
            exact ⟨rfl, by simp [scrubLogs]⟩
    unfold createScene
    refine bind_congr_scrub ?_ ?_
    · rw [phaseFetch_ext_eq rfl]
      exact ⟨rfl, rfl⟩
    · intro rs1
      refine bind_congr_scrub ?_ ?_
      · rw [phaseMSB_ext_eq rfl]
        exact ⟨rfl, rfl⟩
      · intro msb
        refine bind_congr_scrub (hmtd rs1) ?_
        intro u
        have hpost : phasePost { ext with parseBND3 := g } rs1 id msb =
            phasePost ext rs1 id msb :=
          phasePost_ext_eq
            (show ({ ext with parseBND3 := g } : Externals).decompressBuffer =
              ext.decompressBuffer from rfl) rfl rfl rfl rs1 id msb
        rw [hpost]
        exact ⟨rfl, rfl⟩
  · intro tr r h
    unfold createScene at h
    obtain ⟨t1, rs1, t2', hpf, h, htr⟩ := LoadM.bind_eq_ok h
    obtain ⟨t2, msb, t3', hmsb, h, htr2⟩ := LoadM.bind_eq_ok h
    obtain ⟨t3, u, t4, hmtd, h, htr3⟩ := LoadM.bind_eq_ok h
    obtain ⟨b, m, hb, hm, ht3⟩ := phaseMtd_eq_ok hmtd
    refine ⟨b, m, hm, ?_⟩
    rw [htr, htr2, htr3, ht3]
    simp

/-- C3 counterexample: two loads of the same scene differing only in the
decoded material-definition container produce the same scene object (the
same sub-scene renderer arguments, holders and result), and differ only in
the console log, so the decoded container is dropped after logging rather
than handed on for consumption. -/
theorem dks_c3_counterexample :
    (createScene extB netA "m10_01_00_00").2 = (createScene extA netA "m10_01_00_00").2 ∧
    (createScene extB netA "m10_01_00_00").1 ≠ (createScene extA netA "m10_01_00_00").1 :=
  ⟨by rfl, by decide⟩

/-- C3 witness: the amended theorem applied to the concrete scenario with the
alternative container decoder. -/
theorem dks_c3_witness :
    (createScene { extA with parseBND3 := fun _ => Except.ok ⟨["mtdB"]⟩ } netA
        "m10_01_00_00").2 = (createScene extA netA "m10_01_00_00").2 ∧
    scrubLogs (createScene { extA with parseBND3 := fun _ => Except.ok ⟨["mtdB"]⟩ } netA
        "m10_01_00_00").1 = scrubLogs (createScene extA netA "m10_01_00_00").1 :=
  (dks_c3_mtd_logged_not_forwarded extA (fun _ => Except.ok ⟨["mtdB"]⟩) netA "m10_01_00_00"
    (by intro b e; simp [extA])).1

theorem lookupEvents_append (a b : List Event) :
    lookupEvents (a ++ b) = lookupEvents a ++ lookupEvents b := List.filterMap_append a b _

theorem lookupEvents_registers (ts : List Texture) :
    lookupEvents (ts.map (fun t => Event.register t.name)) = [] := by
  induction ts with
  | nil => rfl
  | cons t ts ih => exact ih

theorem lookupEvents_cons_lookup (p : String) (tr : List Event) :
    lookupEvents (Event.lookup p :: tr) = p :: lookupEvents tr := rfl

theorem lookupEvents_nil : lookupEvents [] = [] := rfl

theorem processRecord_fst_lookups (ext : Externals) (h : DDSTextureHolder) (r : FileRecord) :
    lookupEvents (processRecord ext h r).1 = [] := by
  unfold processRecord
  by_cases h1 : jsEndsWith r.name ".tpf.dcx" = true
  · rcases h2 : ext.decompressBuffer r.buffer with e | d
    · simp [h1, h2, assertL, liftE, throwE, LoadM.bind_def, LoadM.bind, lookupEvents]
    · rcases h3 : ext.parseTPF d with e | tpf
      · simp [h1, h2, h3, assertL, liftE, throwE, LoadM.bind_def, LoadM.bind, lookupEvents]
      · rcases h4 : tpf.textures with _ | ⟨t, ts⟩
        · simp [h1, h2, h3, h4, assertL, liftE, throwE, jsDeref, LoadM.bind_def, LoadM.bind,
            lookupEvents]
        · rcases ts with _ | ⟨t2, ts2⟩
          · by_cases h5 : normalizeDeclared r.name = jsToLower t.name <;>
              simp [h1, h2, h3, h4, h5, assertL, liftE, throwE, jsDeref, addTexturesM,
                LoadM.bind_def, LoadM.bind, lookupEvents]
          · have hne : ¬(tpf.textures.length = 1) := by rw [h4]; simp
            simp [h1, h2, h3, h4, hne, assertL, liftE, throwE, jsDeref, LoadM.bind_def,
              LoadM.bind, lookupEvents]
  · simp [h1, assertL, liftE, throwE, LoadM.bind_def, LoadM.bind, lookupEvents]

theorem processRecords_fst_lookups (ext : Externals) :
    ∀ (recs : List FileRecord) (h : DDSTextureHolder),
      lookupEvents (processRecords ext h recs).1 = [] := by
  intro recs
  induction recs with
  | nil => intro h; rfl
  | cons r rest ih =>
    intro h
    have hpr0 := processRecord_fst_lookups ext h r
    rcases hpr : processRecord ext h r with ⟨t0, r0⟩
    rw [hpr] at hpr0
    rw [processRecords, LoadM.bind_def, hpr]
    cases r0 with
    | ok h' =>
      show lookupEvents (t0 ++ (processRecords ext h' rest).1) = []
      rw [lookupEvents_append, hpr0, ih h']
      rfl
    | error e => exact hpr0

theorem loadTextureBHD_fst_lookups (ext : Externals) (h : DDSTextureHolder)
    (rs : ResourceSystem) (baseName : String) :
    lookupEvents (loadTextureBHD ext h rs baseName).1 =
      [baseName ++ ".tpfbhd", baseName ++ ".tpfbdt"] := by
  unfold loadTextureBHD
  rcases hb1 : rs.lookupFile (baseName ++ ".tpfbhd") with _ | b1
  · simp [hb1, emitE, jsDeref, LoadM.bind_def, LoadM.bind, lookupEvents]
  · rcases hb2 : rs.lookupFile (baseName ++ ".tpfbdt") with _ | b2
    · simp [hb1, hb2, emitE, jsDeref, LoadM.bind_def, LoadM.bind, lookupEvents]
    · rcases hp : ext.parseBHD b1 b2 with e | bhd
      · simp [hb1, hb2, hp, emitE, jsDeref, liftE, LoadM.bind_def, LoadM.bind, lookupEvents]
      · simp [hb1, hb2, hp, emitE, jsDeref, liftE, LoadM.bind_def, LoadM.bind,
          lookupEvents_append, lookupEvents_cons_lookup, lookupEvents_nil,
          processRecords_fst_lookups]

theorem loadTextureTPFDCX_fst_lookups (ext : Externals) (h : DDSTextureHolder)
    (rs : ResourceSystem) (baseName : String) :
    lookupEvents (loadTextureTPFDCX ext h rs baseName).1 = [baseName ++ ".tpf.dcx"] := by
  unfold loadTextureTPFDCX
  rcases hb : rs.lookupFile (baseName ++ ".tpf.dcx") with _ | b
  · simp [hb, emitE, jsDeref, LoadM.bind_def, LoadM.bind, lookupEvents]
  · rcases hd : ext.decompressBuffer b with e | d
    · simp [hb, hd, emitE, jsDeref, liftE, LoadM.bind_def, LoadM.bind, lookupEvents]
    · rcases hp : ext.parseTPF d with e | tpf
      · simp [hb, hd, hp, emitE, jsDeref, liftE, LoadM.bind_def, LoadM.bind, lookupEvents]
      · simp [hb, hd, hp, emitE, jsDeref, liftE, addTexturesM, LoadM.bind_def, LoadM.bind,
          lookupEvents, lookupEvents_append, lookupEvents_registers]

theorem resolveModels_ok_lookups (ext : Externals) (rs : ResourceSystem) :
    ∀ (ms : List MSBModel) (tr : List Event) (slots : List (Option FLVER)),
      resolveModels ext rs ms = (tr, Except.ok slots) →
      lookupEvents tr = (ms.filter (fun m => decide (m.type = 0))).map MSBModel.flverPath := by
  intro ms
  induction ms with
  | nil =>
    intro tr slots h
    obtain ⟨htr, -⟩ := pure_eq_ok h
    rw [htr]
    rfl
  | cons m ms ih =>
    intro tr slots h
    by_cases hm : m.type = 0
    · obtain ⟨b, d, fl, tr', rest, -, -, -, hrec, -, htr⟩ := resolveModels_cons_ok_type0 hm h
      rw [htr, List.filter_cons, if_pos (by simpa using hm)]
      rw [lookupEvents_cons_lookup, ih tr' rest hrec]
      rfl
    · obtain ⟨rest, hrec, -⟩ := resolveModels_cons_ok_other hm h
      rw [List.filter_cons, if_neg (by simpa using hm)]
      exact ih tr rest hrec

theorem loadMapTextures_ok_lookups (ext : Externals) (h : DDSTextureHolder)
    (rs : ResourceSystem) (mapKey : String) (tr : List Event) (th : DDSTextureHolder)
    (hm : loadMapTextures ext h rs mapKey = (tr, Except.ok th)) :
    lookupEvents tr =
      ["/map/" ++ mapKey ++ "/" ++ mapKey ++ "_0000" ++ ".tpfbhd",
       "/map/" ++ mapKey ++ "/" ++ mapKey ++ "_0000" ++ ".tpfbdt",
       "/map/" ++ mapKey ++ "/" ++ mapKey ++ "_0001" ++ ".tpfbhd",
       "/map/" ++ mapKey ++ "/" ++ mapKey ++ "_0001" ++ ".tpfbdt",
       "/map/" ++ mapKey ++ "/" ++ mapKey ++ "_0002" ++ ".tpfbhd",
       "/map/" ++ mapKey ++ "/" ++ mapKey ++ "_0002" ++ ".tpfbdt",
       "/map/" ++ mapKey ++ "/" ++ mapKey ++ "_0003" ++ ".tpfbhd",
       "/map/" ++ mapKey ++ "/" ++ mapKey ++ "_0003" ++ ".tpfbdt",
       "/map/" ++ mapKey ++ "/" ++ mapKey ++ "_9999" ++ ".tpf.dcx"] := by
  rw [loadMapTextures] at hm
  obtain ⟨t1, th1, tr1, hb1, hm, htr1⟩ := LoadM.bind_eq_ok hm
  obtain ⟨t2, th2, tr2, hb2, hm, htr2⟩ := LoadM.bind_eq_ok hm
  obtain ⟨t3, th3, tr3, hb3, hm, htr3⟩ := LoadM.bind_eq_ok hm
  obtain ⟨t4, th4, tr4, hb4, hm, htr4⟩ := LoadM.bind_eq_ok hm
  have l1 := loadTextureBHD_fst_lookups ext h rs ("/map/" ++ mapKey ++ "/" ++ mapKey ++ "_0000")
  have l2 := loadTextureBHD_fst_lookups ext th1 rs ("/map/" ++ mapKey ++ "/" ++ mapKey ++ "_0001")
  have l3 := loadTextureBHD_fst_lookups ext th2 rs ("/map/" ++ mapKey ++ "/" ++ mapKey ++ "_0002")
  have l4 := loadTextureBHD_fst_lookups ext th3 rs ("/map/" ++ mapKey ++ "/" ++ mapKey ++ "_0003")
  have l5 := loadTextureTPFDCX_fst_lookups ext th4 rs ("/map/" ++ mapKey ++ "/" ++ mapKey ++ "_9999")
  rw [hb1] at l1
  rw [hb2] at l2
  rw [hb3] at l3
  rw [hb4] at l4
  rw [LoadM.eta (loadTextureTPFDCX ext th4 rs ("/map/" ++ mapKey ++ "/" ++ mapKey ++ "_9999")),
    hm] at l5
  rw [htr1, htr2, htr3, htr4]
  rw [lookupEvents_append, lookupEvents_append, lookupEvents_append, lookupEvents_append]
  rw [l1, l2, l3, l4, l5]
  rfl

theorem LoadM.pure_run {α : Type} (a : α) : (pure a : LoadM α) = ([], Except.ok a) := rfl

theorem phaseFetch_fst (ext : Externals) (net : String → Except String Buffer) (id : String) :
    (phaseFetch ext net id).1 =
      [Event.fetch (pathBase ++ "/" ++ arcNameOf id),
       Event.fetch (pathBase ++ "/" ++ "mtd/Mtd.mtdbnd")] := by
  unfold phaseFetch
  rcases h1 : net (pathBase ++ "/" ++ arcNameOf id) with e | buf
  · simp [h1, emitE, liftE, LoadM.bind_def, LoadM.bind]
  · rcases h2 : ext.parseCRG1 buf with e | arc
    · simp [h1, h2, emitE, liftE, LoadM.bind_def, LoadM.bind]
    · rcases h3 : net (pathBase ++ "/" ++ "mtd/Mtd.mtdbnd") with e | mb <;>
        simp [h1, h2, h3, emitE, liftE, LoadM.bind_def, LoadM.bind, LoadM.pure_run]

theorem phaseMSB_eq_ok {ext : Externals} {rs : ResourceSystem} {id : String}
    {tr : List Event} {msb : MSB} (h : phaseMSB ext rs id = (tr, Except.ok msb)) :
    tr = [Event.lookup ("/map/MapStudio/" ++ id ++ ".msb")] := by
  rw [phaseMSB] at h
  obtain ⟨tr2, h, htr⟩ := bind_emit_eq_ok h
  obtain ⟨b, hb, h⟩ := bind_jsDeref_eq_ok h
  have h4 : ([] : List Event) = tr2 := congrArg Prod.fst h
  rw [htr, ← h4]

theorem phasePost_eq_ok {ext : Externals} {rs : ResourceSystem} {id : String} {msb : MSB}
    {tr : List Event} {r : DKSRenderer} (h : phasePost ext rs id msb = (tr, Except.ok r)) :
    ∃ (trM trT : List Event) (slots : List (Option FLVER)) (th : DDSTextureHolder),
      resolveModels ext rs msb.models = (trM, Except.ok slots) ∧
      loadMapTextures ext DDSTextureHolder.empty rs (mapGroupOf id) = (trT, Except.ok th) ∧
      tr = trM ++ trT ∧
      r = DKSRenderer.mk [MSBRenderer.mk th (ModelHolder.ofFLVERs slots) msb] th
        (ModelHolder.ofFLVERs slots) := by
  rw [phasePost] at h
  obtain ⟨trM, slots, tr2, hres, h, htr⟩ := LoadM.bind_eq_ok h
  obtain ⟨trT, th, tr3, hmap, h, htr2⟩ := LoadM.bind_eq_ok h
  obtain ⟨htr3, hr⟩ := pure_eq_ok h
  refine ⟨trM, trT, slots, th, hres, hmap, ?_, ?_⟩
  · rw [htr, htr2, htr3, List.append_nil]
  · rw [hr]
    rfl

/-- C4: for every scene id, a load that completes looks the placement table
up at /map/MapStudio/(id).msb inside the mounted namespace, derives the map
group as the first three characters of the id, and issues exactly the four
numbered split-bank lookups (header and data halves) followed by the one
loose 9999 container lookup at the claimed paths; besides these, the only
namespace lookups are the mounted material-definition buffer and the
placement-table model references themselves. -/
theorem dks_c4_logical_paths (ext : Externals) (net : String → Except String Buffer)
    (id : String) (tr : List Event) (r : DKSRenderer) (th : DDSTextureHolder)
    (mh : ModelHolder) (msb : MSB)
    (h : createScene ext net id = (tr, Except.ok r))
    (h2 : r.sceneRenderers = [MSBRenderer.mk th mh msb]) :
    mapGroupOf id = String.mk (id.data.take 3) ∧
    lookupEvents tr =
      ["/map/MapStudio/" ++ id ++ ".msb", "mtd/Mtd.mtdbnd"]
      ++ (msb.models.filter (fun m => decide (m.type = 0))).map MSBModel.flverPath
      ++ ["/map/" ++ mapGroupOf id ++ "/" ++ mapGroupOf id ++ "_0000" ++ ".tpfbhd",
          "/map/" ++ mapGroupOf id ++ "/" ++ mapGroupOf id ++ "_0000" ++ ".tpfbdt",
          "/map/" ++ mapGroupOf id ++ "/" ++ mapGroupOf id ++ "_0001" ++ ".tpfbhd",
          "/map/" ++ mapGroupOf id ++ "/" ++ mapGroupOf id ++ "_0001" ++ ".tpfbdt",
          "/map/" ++ mapGroupOf id ++ "/" ++ mapGroupOf id ++ "_0002" ++ ".tpfbhd",
          "/map/" ++ mapGroupOf id ++ "/" ++ mapGroupOf id ++ "_0002" ++ ".tpfbdt",
          "/map/" ++ mapGroupOf id ++ "/" ++ mapGroupOf id ++ "_0003" ++ ".tpfbhd",
          "/map/" ++ mapGroupOf id ++ "/" ++ mapGroupOf id ++ "_0003" ++ ".tpfbdt",
          "/map/" ++ mapGroupOf id ++ "/" ++ mapGroupOf id ++ "_9999" ++ ".tpf.dcx"] := by
  refine ⟨rfl, ?_⟩
  unfold createScene at h
  obtain ⟨t1, rs1, t2', hpf, h, htr⟩ := LoadM.bind_eq_ok h
  obtain ⟨t2, msb', t3', hmsb, h, htr2⟩ := LoadM.bind_eq_ok h
  obtain ⟨t3, u, t4, hmtd, h, htr3⟩ := LoadM.bind_eq_ok h
  obtain ⟨trM, trT, slots, th', hres, hmap, ht4, hr⟩ := phasePost_eq_ok h
  subst hr
  have h2' : [MSBRenderer.mk th' (ModelHolder.ofFLVERs slots) msb'] =
      [MSBRenderer.mk th mh msb] := h2
  injection h2' with hhead htail
  injection hhead with hth hmh hmsb2
  subst hth
  subst hmsb2
  have ht1 : t1 = [Event.fetch (pathBase ++ "/" ++ arcNameOf id),
      Event.fetch (pathBase ++ "/" ++ "mtd/Mtd.mtdbnd")] := by
    have hx := phaseFetch_fst ext net id
    rw [hpf] at hx
    exact hx
  have ht2 : t2 = [Event.lookup ("/map/MapStudio/" ++ id ++ ".msb")] := phaseMSB_eq_ok hmsb
  obtain ⟨b, m, hb, hm, ht3⟩ := phaseMtd_eq_ok hmtd
  have hlookM := resolveModels_ok_lookups ext rs1 msb'.models trM slots hres
  have hlookT := loadMapTextures_ok_lookups ext DDSTextureHolder.empty rs1 (mapGroupOf id)
    trT th' hmap
  rw [htr, htr2, htr3, ht4, ht1, ht2, ht3]
  rw [lookupEvents_append, lookupEvents_append, lookupEvents_append, lookupEvents_append]
  rw [hlookM, hlookT]
  rfl

/-- C4 witness: the scenario load of m10_01_00_00 issues exactly the claimed
lookups, with the map group m10. -/
theorem dks_c4_witness :
    mapGroupOf "m10_01_00_00" = String.mk ("m10_01_00_00".data.take 3) ∧
    lookupEvents (createScene extA netA "m10_01_00_00").1 =
      ["/map/MapStudio/m10_01_00_00.msb", "mtd/Mtd.mtdbnd", "/map/m10/mod.flver.dcx",
       "/map/m10/m10_0000.tpfbhd", "/map/m10/m10_0000.tpfbdt",
       "/map/m10/m10_0001.tpfbhd", "/map/m10/m10_0001.tpfbdt",
       "/map/m10/m10_0002.tpfbhd", "/map/m10/m10_0002.tpfbdt",
       "/map/m10/m10_0003.tpfbhd", "/map/m10/m10_0003.tpfbdt",
       "/map/m10/m10_9999.tpf.dcx"] := by
  have h := dks_c4_logical_paths extA netA "m10_01_00_00"
    (createScene extA netA "m10_01_00_00").1 rendA thA mhA msbA (by rfl) (by rfl)
  exact ⟨h.1, by rw [h.2]; rfl⟩

theorem isOkE_eq_false_iff {α : Type} (x : Except String α) :
    isOkE x = false ↔ ∃ e, x = Except.error e := by
  cases x <;> simp [isOkE]

theorem phaseFetch_fail (ext : Externals) (net : String → Except String Buffer) (id : String)
    (hf : isOkE (net (pathBase ++ "/" ++ arcNameOf id)) = false ∨
          isOkE (net (pathBase ++ "/" ++ "mtd/Mtd.mtdbnd")) = false) :
    ∃ e, (phaseFetch ext net id).2 = Except.error e := by
  rcases h1 : net (pathBase ++ "/" ++ arcNameOf id) with e | buf
  · exact ⟨e, by unfold phaseFetch; simp [h1, emitE, liftE, LoadM.bind_def, LoadM.bind]⟩
  · rcases hf with hf | hf
    · rw [h1] at hf
      simp [isOkE] at hf
    · obtain ⟨e2, h3⟩ := (isOkE_eq_false_iff _).mp hf
      rcases h2 : ext.parseCRG1 buf with ep | arc
      · exact ⟨ep, by unfold phaseFetch; simp [h1, h2, emitE, liftE, LoadM.bind_def, LoadM.bind]⟩
      · exact ⟨e2, by
          unfold phaseFetch
          simp [h1, h2, h3, emitE, liftE, LoadM.bind_def, LoadM.bind]⟩

/-- C7: the bulk-archive fetch and the material-definition fetch are both
issued before either result is consumed (the Promise.all join), and when
either of the two network responses is a failure the whole scene load
produces no scene: its result is an error. -/
theorem dks_c7_parallel_join (ext : Externals) (net : String → Except String Buffer)
    (id : String) :
    Event.fetch (pathBase ++ "/" ++ arcNameOf id) ∈ (createScene ext net id).1 ∧
    Event.fetch (pathBase ++ "/" ++ "mtd/Mtd.mtdbnd") ∈ (createScene ext net id).1 ∧
    ((isOkE (net (pathBase ++ "/" ++ arcNameOf id)) = false ∨
      isOkE (net (pathBase ++ "/" ++ "mtd/Mtd.mtdbnd")) = false) →
      isOkE (createScene ext net id).2 = false) := by
  have hpre : ∃ t2, (createScene ext net id).1 =
      [Event.fetch (pathBase ++ "/" ++ arcNameOf id),
       Event.fetch (pathBase ++ "/" ++ "mtd/Mtd.mtdbnd")] ++ t2 := by
    unfold createScene
    obtain ⟨t2, hb⟩ := LoadM.bind_fst (phaseFetch ext net id) _
    exact ⟨t2, by rw [hb, phaseFetch_fst]⟩
  obtain ⟨t2, hpre⟩ := hpre
  refine ⟨by rw [hpre]; simp, by rw [hpre]; simp, ?_⟩
  intro hfail
  obtain ⟨e, he⟩ := phaseFetch_fail ext net id hfail
  have hbind : (createScene ext net id).2 = Except.error e := by
    unfold createScene
    exact LoadM.bind_snd_error (phaseFetch ext net id) _ e he
  rw [hbind]
  rfl

/-- C7 witness: with every network response failing, no scene is produced. -/
theorem dks_c7_witness :
    isOkE (createScene extA (fun _ => Except.error "network down") "m10_01_00_00").2 = false :=
  (dks_c7_parallel_join extA (fun _ => Except.error "network down") "m10_01_00_00").2.2
    (Or.inl (by rfl))

/-- End-to-end scenario check: the full scenario load succeeds and produces
the expected renderer. -/
theorem scenario_end_to_end_result :
    (createScene extA netA "m10_01_00_00").2 = Except.ok rendA := by rfl

/-- End-to-end scenario check: the full event trace of the scenario load. -/
theorem scenario_end_to_end_trace :
    (createScene extA netA "m10_01_00_00").1 = [
      Event.fetch "dks/m10_01_00_00_arc.crg1", Event.fetch "dks/mtd/Mtd.mtdbnd",
      Event.lookup "/map/MapStudio/m10_01_00_00.msb",
      Event.lookup "mtd/Mtd.mtdbnd", Event.log mtdA,
      Event.lookup "/map/m10/mod.flver.dcx",
      Event.lookup "/map/m10/m10_0000.tpfbhd", Event.lookup "/map/m10/m10_0000.tpfbdt",
      Event.register "x",
      Event.lookup "/map/m10/m10_0001.tpfbhd", Event.lookup "/map/m10/m10_0001.tpfbdt",
      Event.lookup "/map/m10/m10_0002.tpfbhd", Event.lookup "/map/m10/m10_0002.tpfbdt",
      Event.lookup "/map/m10/m10_0003.tpfbhd", Event.lookup "/map/m10/m10_0003.tpfbdt",
      Event.lookup "/map/m10/m10_9999.tpf.dcx",
      Event.register "l1", Event.register "l2"] := by rfl
